import Mathlib

/-!
Verification of `express-shopify-auth` (`src/index.js`) against its
natural-language specification.

The JavaScript module is shallowly embedded: JavaScript strings become
Lean `String`, objects of string values become association lists
`List (String × String)` whose lookup takes the first matching key,
and the asynchronous callback-style control flow of the middleware is
flattened into pure functions that return a record of the observable
effects (hook invocations, redirects, cache mutations, uncaught
exceptions).  The HMAC-SHA256 primitive lives in Node's `crypto`
module, outside this repository; it is modelled as an explicit
function parameter `hf : String → String → String` (secret, message ↦
lowercase-hex digest) that every definition threads through
unchanged, so all results hold for the real primitive.
-/

set_option autoImplicit false

namespace ShopifyAuth

/-- Byte-wise (UTF-16 code unit for the BMP range used here) lexicographic
`≤` on character lists, matching JavaScript's default string comparison. -/
def lexLe : List Char → List Char → Bool
  | [], _ => true
  | _ :: _, [] => false
  | a :: as, b :: bs =>
    if a.toNat < b.toNat then true
    else if b.toNat < a.toNat then false
    else lexLe as bs

/-- Lexicographic `≤` on strings, as used by JavaScript's `Array.prototype.sort()`. -/
def strLe (a b : String) : Bool := lexLe a.data b.data

/-- Insert into a list sorted by `le` (helper for `sortLe`). -/
def insertLe (le : String → String → Bool) (a : String) : List String → List String
  | [] => [a]
  | b :: bs => if le a b then a :: b :: bs else b :: insertLe le a bs

/-- Insertion sort by `le`; models `Array.prototype.sort()` over the
(unique) keys of a JavaScript object. -/
def sortLe (le : String → String → Bool) : List String → List String
  | [] => []
  | k :: ks => insertLe le k (sortLe le ks)

/-- Replace the first occurrence of character `c` in a character list by `rep`:
the semantics of JavaScript `String.prototype.replace` with a single-character
string pattern, which replaces only the first match. -/
def replaceFirstChar (c : Char) (rep : List Char) : List Char → List Char
  | [] => []
  | d :: ds => if d = c then rep ++ ds else d :: replaceFirstChar c rep ds

/-- Replace every occurrence of character `c` in a character list by `rep`
(the "encode every occurrence" reading of the specification). -/
def replaceAllChar (c : Char) (rep : List Char) : List Char → List Char
  | [] => []
  | d :: ds => if d = c then rep ++ replaceAllChar c rep ds else d :: replaceAllChar c rep ds

/-- JavaScript `s.replace(c, rep)` for a one-character pattern `c`:
replaces only the first occurrence. -/
def jsReplace (s : String) (c : Char) (rep : String) : String :=
  String.mk (replaceFirstChar c rep.data s.data)

/-- Key escaping from `checkIntegrity` (src/index.js line 27):
`key.replace('%', '%25').replace('&', '%26').replace('=', '%3D')` —
each `replace` rewrites only the first occurrence of its pattern. -/
def escapeKey (k : String) : String :=
  jsReplace (jsReplace (jsReplace k '%' "%25") '&' "%26") '=' "%3D"

/-- Value escaping from `checkIntegrity` (src/index.js line 28):
`params[key].replace('%', '%25').replace('&', '%26')` — only the first
occurrence of each pattern, and `=` is not escaped at all. -/
def escapeVal (v : String) : String :=
  jsReplace (jsReplace v '%' "%25") '&' "%26"

/-- Join a list of strings with a separator, as `Array.prototype.join`. -/
def joinSep (sep : String) : List String → String
  | [] => ""
  | [x] => x
  | x :: y :: ys => x ++ sep ++ joinSep sep (y :: ys)

/-- The non-signature keys of a parameter map, in insertion order:
`Object.keys(params).filter(key => key !== 'hmac' && key !== 'signature')`. -/
def signedKeys (params : List (String × String)) : List String :=
  (params.map Prod.fst).filter (fun k => !(k == "hmac") && !(k == "signature"))

/-- `ShopifyAuth.checkIntegrity(appSecret, params)` (src/index.js lines 20–36),
with the external HMAC-SHA256-to-lowercase-hex primitive abstracted as `hf`.
Keys other than `hmac`/`signature` are sorted, each key/value pair is escaped
by `escapeKey`/`escapeVal`, the pairs are joined as `key=value` with `&`,
and the digest of the resulting message is compared with `params.hmac`
(absent `hmac` compares unequal to the computed hex digest). -/
def checkIntegrity (hf : String → String → String) (appSecret : String)
    (params : List (String × String)) : Bool :=
  let sorted := sortLe strLe (signedKeys params)
  let message := joinSep "&"
    (sorted.map (fun k => escapeKey k ++ "=" ++ escapeVal ((List.lookup k params).getD "")))
  let ourSignature := hf appSecret message
  match List.lookup "hmac" params with
  | some h => ourSignature == h
  | none => false

/-- Escaping as the specification words it: percent-encode every occurrence of
`%`, then `&`, then `=`, in that fixed order. -/
def specEscape (s : String) : String :=
  String.mk (replaceAllChar '=' "%3D".data
    (replaceAllChar '&' "%26".data
      (replaceAllChar '%' "%25".data s.data)))

/-- The integrity check exactly as the specification describes it (claim C1):
drop the signature keys, sort, escape every occurrence of `%`, `&`, `=` in
both key and value with `specEscape`, join, digest, compare. -/
def checkIntegritySpec (hf : String → String → String) (appSecret : String)
    (params : List (String × String)) : Bool :=
  let sorted := sortLe strLe (signedKeys params)
  let message := joinSep "&"
    (sorted.map (fun k => specEscape k ++ "=" ++ specEscape ((List.lookup k params).getD "")))
  let ourSignature := hf appSecret message
  match List.lookup "hmac" params with
  | some h => ourSignature == h
  | none => false

/-- Apply a list of first-occurrence-only character replacements in order. -/
def firstReplacements (rs : List (Char × String)) (s : String) : String :=
  rs.foldl (fun acc pr => jsReplace acc pr.1 pr.2) s

/-- Amended key escaping: in the fixed order `%`, `&`, `=`, replace only the
first occurrence of each character. -/
def amendedEscapeKey (k : String) : String :=
  firstReplacements [('%', "%25"), ('&', "%26"), ('=', "%3D")] k

/-- Amended value escaping: replace only the first occurrence of `%` and of
`&`; the character `=` is left unencoded in values. -/
def amendedEscapeVal (v : String) : String :=
  firstReplacements [('%', "%25"), ('&', "%26")] v

/-- The integrity check as amended from the specification's wording: same
pipeline, but each replacement rewrites only the first occurrence, and values
never have `=` encoded. -/
def checkIntegrityAmended (hf : String → String → String) (appSecret : String)
    (params : List (String × String)) : Bool :=
  let sorted := sortLe strLe (signedKeys params)
  let message := joinSep "&"
    (sorted.map (fun k =>
      amendedEscapeKey k ++ "=" ++ amendedEscapeVal ((List.lookup k params).getD "")))
  let ourSignature := hf appSecret message
  match List.lookup "hmac" params with
  | some h => ourSignature == h
  | none => false

/-- The fixed platform domain (src/index.js line 7). -/
def DOMAIN : String := "myshopify.com"

/-- One character of `INVALID_CHAR_RE = /[^0-9a-zA-Z.-]/` (src/index.js line 8). -/
def invalidChar (c : Char) : Bool :=
  !(c.isDigit || c.isAlpha || c == '.' || c == '-')

/-- `ShopifyAuth.checkShopHostname` (src/index.js lines 38–42): no character
outside `[0-9a-zA-Z.-]`, and the final `DOMAIN.length` characters equal
`DOMAIN` (`hostname.substring(hostname.length - DOMAIN.length)`, whose negative
start clamps to 0 exactly as truncated `Nat` subtraction does). -/
def checkShopHostname (hostname : String) : Bool :=
  let hasInvalidChar := hostname.data.any invalidChar
  let hasRightDomain :=
    String.mk (hostname.data.drop (hostname.data.length - DOMAIN.data.length)) == DOMAIN
  !hasInvalidChar && hasRightDomain

/-- A JavaScript value as Express may place it in `req.query`: a string, or a
non-string such as an array of strings (repeated query keys). -/
inductive JsVal where
  | str (s : String)
  | arr (vs : List String)
  deriving DecidableEq, Repr

/-- Whether a `JsVal` is a string. -/
def JsVal.isStr : JsVal → Bool
  | .str _ => true
  | .arr _ => false

/-- The string carried by a `JsVal`, defaulting to `""` for non-strings. -/
def JsVal.asStr : JsVal → String
  | .str s => s
  | .arr _ => ""

/-- The JavaScript exception raised when `.replace` is invoked on a value that
is not a string (`TypeError: params[key].replace is not a function`). -/
inductive JsError where
  | typeError
  deriving DecidableEq, Repr

/-- The non-signature keys of a parameter map of `JsVal` values. -/
def signedKeysJS (params : List (String × JsVal)) : List String :=
  (params.map Prod.fst).filter (fun k => !(k == "hmac") && !(k == "signature"))

/-- One `escapedKey + '=' + escapedVal` pair of `checkIntegrity`, evaluated on
a parameter map that may hold non-string values: calling `.replace` on a
non-string (or on `undefined`, for a key with no entry) throws a `TypeError`. -/
def jsPair (params : List (String × JsVal)) (k : String) : Except JsError String :=
  match List.lookup k params with
  | some (JsVal.str v) => .ok (escapeKey k ++ "=" ++ escapeVal v)
  | some (JsVal.arr _) => .error .typeError
  | none => .error .typeError

/-- Evaluate `jsPair` over a key list left to right, propagating the first
thrown `TypeError` (the semantics of the `.map` callback in `checkIntegrity`). -/
def collectPairs (params : List (String × JsVal)) : List String → Except JsError (List String)
  | [] => .ok []
  | k :: ks =>
    match jsPair params k, collectPairs params ks with
    | .error e, _ => .error e
    | .ok _, .error e => .error e
    | .ok s, .ok rest => .ok (s :: rest)

/-- `ShopifyAuth.checkIntegrity` evaluated on a parameter map that may contain
non-string values, exposing the exception behaviour of the JavaScript code:
a `TypeError` escapes when any signed value is not a string; otherwise the
boolean comparison result is returned (`false` when `params.hmac` is absent or
not a string equal to the digest). -/
def checkIntegrityJS (hf : String → String → String) (appSecret : String)
    (params : List (String × JsVal)) : Except JsError Bool :=
  let sorted := sortLe strLe (signedKeysJS params)
  match collectPairs params sorted with
  | .error e => .error e
  | .ok parts =>
    let message := joinSep "&" parts
    let ourSignature := hf appSecret message
    match List.lookup "hmac" params with
    | some (JsVal.str h) => .ok (ourSignature == h)
    | _ => .ok false

/-- A failure reported by the `request.post` callback in
`exchangeCodeForToken` through `cb(err)`. -/
inductive ExchErr where
  | parseError
  | noToken
  deriving DecidableEq, Repr

/-- The outcome that the token endpoint hands to the `request.post` callback
(src/index.js line 64): a transport error `err`, a string body (which
`JSON.parse` either parses to an object, modelled as its field list, or
rejects), or an already-parsed object body. -/
inductive HttpResponse where
  | transportError
  | stringBody (parsed : Option (List (String × String)))
  | objectBody (fields : List (String × String))
  deriving DecidableEq, Repr

/-- How one invocation of `exchangeCodeForToken`'s internal callback ends:
an uncaught exception, `cb(err)`, or `cb(null, accessToken)`. -/
inductive CbResult where
  | thrown (msg : String)
  | errCb (e : ExchErr)
  | tokenCb (t : String)
  deriving DecidableEq, Repr

/-- `if (!body.access_token) cb(new Error(...)) else cb(null, body.access_token)`
(src/index.js lines 73–76); an absent or empty `access_token` is falsy. -/
def tokenFrom (fields : List (String × String)) : CbResult :=
  match List.lookup "access_token" fields with
  | some t => if t == "" then .errCb .noToken else .tokenCb t
  | none => .errCb .noToken

/-- `ShopifyAuth.exchangeCodeForToken`'s response handler (src/index.js lines
64–77).  On a transport error the code executes `return next(err)`, but no
`next` is in scope anywhere in `exchangeCodeForToken`, so a `ReferenceError`
is thrown and the callback is never invoked; a string body that fails
`JSON.parse` reaches `cb(e)`; a missing or empty `access_token` reaches
`cb(new Error(...))`; otherwise `cb(null, body.access_token)`. -/
def exchangeCodeForToken : HttpResponse → CbResult
  | .transportError => .thrown "ReferenceError: next is not defined"
  | .stringBody none => .errCb .parseError
  | .stringBody (some fields) => tokenFrom fields
  | .objectBody fields => tokenFrom fields

/-- JavaScript truthiness of an optional string query parameter: absent and
`""` are falsy. -/
def truthy : Option String → Bool
  | none => false
  | some s => !(s == "")

/-- The configuration passed to `ShopifyAuth.create` (src/index.js line 136),
restricted to the plain-data fields; the hook functions are modelled at the
call sites of `handleStart`/`handleCallback`. -/
structure MwOptions where
  appKey : String
  appSecret : String
  baseUrl : String
  authPath : String
  authCallbackPath : String
  authSuccessUrl : String
  authFailUrl : String
  scope : List String
  deriving DecidableEq, Repr

/-- `cache.set(shop, nonce)` on the lru-cache: the entry for `shop` is
overwritten (one value per key). -/
def cacheSet (cache : List (String × String)) (k v : String) : List (String × String) :=
  (k, v) :: cache.filter (fun kv => !(kv.1 == k))

/-- The observable effects of one run of the middleware's callback branch
(src/index.js lines 200–241).  `onErrorArgs` records the first argument of
each `middleware.onError` invocation, with `none` standing for the JavaScript
value `undefined`; `onAuthCalls` records the `(shop, accessToken)` arguments
of each `middleware.onAuth` invocation; the `…CheckRun` flags record which
guard expressions were evaluated; `uncaught` holds an exception that escaped
instead of reaching any hook. -/
structure CallbackOutcome where
  onErrorArgs : List (Option String) := []
  onAuthCalls : List (String × String) := []
  redirects : List String := []
  exchangeAttempted : Bool := false
  stateCheckRun : Bool := false
  integrityCheckRun : Bool := false
  hostnameCheckRun : Bool := false
  uncaught : Option String := none
  cacheAfter : List (String × String)
  deriving DecidableEq, Repr

/-- The middleware's callback branch (src/index.js lines 200–241).  Presence
of `code`, `hmac`, `timestamp`, `state`, `shop` is tested by truthiness; then
`cache.get(params.shop) !== params.state`; then `checkIntegrity`; then
`checkShopHostname`; then the token exchange, whose handler outcome is
computed from `resp` by `exchangeCodeForToken`.  On an exchange failure
delivered through `cb(err)` the code invokes `middleware.onError(shopErr, …)`
where `shopErr` is the hoisted, never-assigned variable of line 220 — i.e.
`undefined`, recorded as `none`.  On success, `onAuth(req, res, shop, token,
done)` runs and `done(onAuthErr)` either routes to `onError` or redirects to
`authSuccessUrl`.  The branch never writes to the cache. -/
def handleCallback (hf : String → String → String) (opts : MwOptions)
    (cache : List (String × String)) (params : List (String × String))
    (resp : HttpResponse) (onAuthErr : Option String) : CallbackOutcome :=
  let getp := fun (k : String) => List.lookup k params
  if !(truthy (getp "code") && truthy (getp "hmac") && truthy (getp "timestamp")
      && truthy (getp "state") && truthy (getp "shop")) then
    { cacheAfter := cache,
      onErrorArgs := [some ("ShopifyAuth: missing required query parameters (got "
        ++ joinSep "," (params.map Prod.fst) ++ ")")] }
  else
    let shop := (getp "shop").getD ""
    if List.lookup shop cache != getp "state" then
      { cacheAfter := cache, stateCheckRun := true,
        onErrorArgs := [some "ShopifyAuth: state not found in cache"] }
    else if !(checkIntegrity hf opts.appSecret params) then
      { cacheAfter := cache, stateCheckRun := true, integrityCheckRun := true,
        onErrorArgs := [some "ShopifyAuth: integrity error (signature mismatch)"] }
    else if !(checkShopHostname shop) then
      { cacheAfter := cache, stateCheckRun := true, integrityCheckRun := true,
        hostnameCheckRun := true,
        onErrorArgs := [some ("ShopifyAuth: invalid shop hostname `" ++ shop ++ "`")] }
    else
      match exchangeCodeForToken resp with
      | .thrown m =>
        { cacheAfter := cache, stateCheckRun := true, integrityCheckRun := true,
          hostnameCheckRun := true, exchangeAttempted := true, uncaught := some m }
      | .errCb _ =>
        { cacheAfter := cache, stateCheckRun := true, integrityCheckRun := true,
          hostnameCheckRun := true, exchangeAttempted := true, onErrorArgs := [none] }
      | .tokenCb t =>
        match onAuthErr with
        | some e =>
          { cacheAfter := cache, stateCheckRun := true, integrityCheckRun := true,
            hostnameCheckRun := true, exchangeAttempted := true,
            onAuthCalls := [(shop, t)], onErrorArgs := [some e] }
        | none =>
          { cacheAfter := cache, stateCheckRun := true, integrityCheckRun := true,
            hostnameCheckRun := true, exchangeAttempted := true,
            onAuthCalls := [(shop, t)], redirects := [opts.authSuccessUrl] }

/-- A character that `encodeURIComponent` leaves unescaped. -/
def uriUnreserved (c : Char) : Bool :=
  c.isDigit || c.isAlpha || c == '-' || c == '_' || c == '.' || c == '~'
    || c == '!' || c == '*' || c == '\x27' || c == '(' || c == ')'

/-- Uppercase hexadecimal digit. -/
def hexDigit (n : Nat) : Char :=
  if n < 10 then Char.ofNat (48 + n) else Char.ofNat (55 + n)

/-- The UTF-8 bytes of a character. -/
def utf8Bytes (c : Char) : List Nat :=
  let n := c.toNat
  if n < 128 then [n]
  else if n < 2048 then [192 + n / 64, 128 + n % 64]
  else if n < 65536 then [224 + n / 4096, 128 + n / 64 % 64, 128 + n % 64]
  else [240 + n / 262144, 128 + n / 4096 % 64, 128 + n / 64 % 64, 128 + n % 64]

/-- Percent-encoding of one query-string character, as Node's
`querystring.escape`. -/
def qsEscapeChar (c : Char) : List Char :=
  if uriUnreserved c then [c]
  else (utf8Bytes c).flatMap (fun b => ['%', hexDigit (b / 16), hexDigit (b % 16)])

/-- Percent-encoding of a query-string component. -/
def qsEscape (s : String) : String :=
  String.mk (s.data.flatMap qsEscapeChar)

/-- The argument record of the `url.format` call at src/index.js line 178. -/
structure UrlRecord where
  protocol : String
  host : String
  pathname : String
  query : List (String × String)
  deriving DecidableEq, Repr

/-- Node's `url.format` for the shape used at src/index.js line 178: protocol,
then `//host`, then the pathname, then `?` and the percent-encoded query. -/
def urlFormat (u : UrlRecord) : String :=
  u.protocol ++ "://" ++ u.host ++ u.pathname ++ "?"
    ++ joinSep "&" (u.query.map (fun kv => qsEscape kv.1 ++ "=" ++ qsEscape kv.2))

/-- The observable effects of one run of the middleware's start branch
(src/index.js lines 164–199). -/
structure StartOutcome where
  onErrorArgs : List (Option String) := []
  onPermissionCalls : Nat := 0
  redirects : List String := []
  cacheAfter : List (String × String)
  deriving DecidableEq, Repr

/-- The middleware's start branch (src/index.js lines 164–199).  `resolve`
stands for Node's `url.resolve`, an external library routine; `shopResult` is
what the configured shop resolver passes to its continuation; `nonce` is the
freshly generated random nonce; `hasOnPermission` tells whether a
pre-permission hook is configured.  On resolver error, `onError` receives the
error.  Otherwise the nonce is stored under the shop, the authorize URL is
built by `url.format`, the optional pre-permission hook is invoked, and
exactly one redirect to that URL is issued. -/
def handleStart (resolve : String → String → String) (opts : MwOptions)
    (cache : List (String × String)) (shopResult : Except String String)
    (nonce : String) (hasOnPermission : Bool) : StartOutcome :=
  match shopResult with
  | .error e => { cacheAfter := cache, onErrorArgs := [some e] }
  | .ok shop =>
    let cacheNext := cacheSet cache shop nonce
    let redirectUrl := urlFormat
      { protocol := "https", host := shop, pathname := "/admin/oauth/authorize",
        query := [("client_id", opts.appKey),
                  ("scope", joinSep "," opts.scope),
                  ("redirect_uri", resolve opts.baseUrl opts.authCallbackPath),
                  ("state", nonce)] }
    if hasOnPermission then
      { cacheAfter := cacheNext, onPermissionCalls := 1, redirects := [redirectUrl] }
    else
      { cacheAfter := cacheNext, redirects := [redirectUrl] }

/-- Whether `pat` occurs as a contiguous run at the head of `l`. -/
def leadsWith : List Char → List Char → Bool
  | [], _ => true
  | _ :: _, [] => false
  | p :: ps, c :: cs => p == c && leadsWith ps cs

/-- Whether `pat` occurs as a contiguous substring of `l`. -/
def hasSub (pat : List Char) : List Char → Bool
  | [] => pat.isEmpty
  | c :: cs => leadsWith pat (c :: cs) || hasSub pat cs

/-- Whether the string `pat` occurs inside the string `s`. -/
def mentions (s pat : String) : Bool := hasSub pat.data s.data

/-- A concrete configuration, with the values of the repository's test suite
(`tests/index.js`, `defaultOptions`), used to instantiate the middleware. -/
def sampleOpts : MwOptions :=
  { appKey := "key", appSecret := "secret", baseUrl := "http://localhost:8000",
    authPath := "/auth", authCallbackPath := "/auth/callback",
    authSuccessUrl := "/success", authFailUrl := "/fail", scope := ["read_products"] }

/-- Looking up in a map whose values were wrapped with `JsVal.str` is the
wrapped lookup. -/
theorem lookup_map_str (k : String) :
    ∀ ps : List (String × String),
      List.lookup k (ps.map (fun kv => (kv.1, JsVal.str kv.2)))
        = (List.lookup k ps).map JsVal.str
  | [] => rfl
  | (a, b) :: ps => by
    cases hk : k == a <;>
      simp [List.lookup, hk, lookup_map_str k ps]

/-- A key that occurs among a map's keys has a successful lookup. -/
theorem lookup_isSome_of_mem_keys :
    ∀ (ps : List (String × String)) (k : String),
      k ∈ ps.map Prod.fst → (List.lookup k ps).isSome = true
  | [], _, h => by simp at h
  | (a, b) :: ps, k, h => by
    cases hk : k == a with
    | true => simp [List.lookup, hk]
    | false =>
      have hne : k ≠ a := by
        intro he; rw [he] at hk; simp at hk
      have : k ∈ ps.map Prod.fst := by
        rcases (by simpa using h) with h' | h'
        · exact absurd h' hne
        · simpa using h'
      simp [List.lookup, hk, lookup_isSome_of_mem_keys ps k this]

/-- Membership is preserved by `insertLe`. -/
theorem mem_insertLe (le : String → String → Bool) (a x : String) :
    ∀ l : List String, x ∈ insertLe le a l ↔ x = a ∨ x ∈ l
  | [] => by simp [insertLe]
  | b :: bs => by
    simp only [insertLe]
    split
    · simp [List.mem_cons]
    · rw [List.mem_cons, mem_insertLe le a x bs, List.mem_cons]
      tauto

/-- Membership is preserved by `sortLe`. -/
theorem mem_sortLe (le : String → String → Bool) (x : String) :
    ∀ l : List String, x ∈ sortLe le l ↔ x ∈ l
  | [] => Iff.rfl
  | k :: ks => by
    rw [sortLe, mem_insertLe, mem_sortLe le x ks, List.mem_cons]

/-- Over a parameter map whose values are all wrapped strings, the pair
builder never throws and produces exactly the string-map pairs, provided every
requested key occurs in the map. -/
theorem collectPairs_map_str (ps : List (String × String)) :
    ∀ klist : List String,
      (∀ k ∈ klist, (List.lookup k ps).isSome = true) →
      collectPairs (ps.map (fun kv => (kv.1, JsVal.str kv.2))) klist
        = .ok (klist.map (fun k =>
            escapeKey k ++ "=" ++ escapeVal ((List.lookup k ps).getD "")))
  | [], _ => rfl
  | k :: ks, h => by
    have hk := h k (List.mem_cons_self k ks)
    obtain ⟨v, hv⟩ := Option.isSome_iff_exists.mp hk
    have ih := collectPairs_map_str ps ks (fun a ha => h a (List.mem_cons_of_mem _ ha))
    simp [collectPairs, jsPair, lookup_map_str, hv, ih]

end ShopifyAuth

open ShopifyAuth

/-- Claim C1, counterexample.  The integrity check as the specification words
it (encode every occurrence of `%`, `&`, `=` in both key and value,
`checkIntegritySpec`) disagrees with the code (`checkIntegrity`) already on
concrete inputs, with the identity taken for the HMAC primitive: the code
leaves `=` unencoded in values, and each `replace` rewrites only the first
occurrence. -/
theorem c1_integrity_algorithm_counterexample :
    checkIntegrity (fun _ m => m) "s" [("a", "x=y"), ("hmac", "a=x=y")] = true
      ∧ checkIntegritySpec (fun _ m => m) "s" [("a", "x=y"), ("hmac", "a=x=y")] = false
      ∧ checkIntegrity (fun _ m => m) "s" [("b", "%%"), ("hmac", "b=%25%")] = true
      ∧ checkIntegritySpec (fun _ m => m) "s" [("b", "%%"), ("hmac", "b=%25%")] = false := by
  decide

/-- Claim C1, amended.  For every HMAC primitive, secret and parameter map,
`checkIntegrity` computes its signature by: drop the `hmac`/`signature` keys,
sort the remaining keys lexicographically byte-wise ascending, replace — in
the fixed order `%` then `&` then `=` — only the FIRST occurrence of each
character in the key, and only the first occurrence of `%` and of `&` in the
value (`=` is never encoded in values), join the pairs as `key=value` with
`&`, digest, and compare with the supplied `hmac` parameter. -/
theorem c1_integrity_algorithm_amended (hf : String → String → String)
    (appSecret : String) (params : List (String × String)) :
    checkIntegrity hf appSecret params = checkIntegrityAmended hf appSecret params :=
  rfl

/-- Claim C9.  `checkShopHostname` performs a bare suffix comparison with no
dot-boundary requirement: `"evilmyshopify.com"` is not the platform domain and
not a dot-separated subdomain of it (the string `".myshopify.com"` occurs
nowhere in it), all its characters lie in `[0-9a-zA-Z.-]`, its final 13
characters are `"myshopify.com"`, and the validator accepts it. -/
theorem c9_hostname_suffix_only :
    checkShopHostname "evilmyshopify.com" = true
      ∧ ("evilmyshopify.com" == DOMAIN) = false
      ∧ mentions "evilmyshopify.com" (".myshopify.com") = false
      ∧ "evilmyshopify.com".data.all (fun c => !invalidChar c) = true
      ∧ String.mk ("evilmyshopify.com".data.drop 4) = DOMAIN := by
  decide

/-- Claim C4, counterexample.  On a parameter map holding a non-string value
under a signed key, `checkIntegrity` does not return `false`: the JavaScript
code calls `.replace` on the value and a `TypeError` escapes. -/
theorem c4_nonstring_counterexample :
    checkIntegrityJS (fun _ _ => "") "s"
      [("a", JsVal.arr ["x"]), ("hmac", JsVal.str "h")] = .error .typeError := by
  rfl

/-- Claim C4, amended.  Whenever every parameter value is a string,
`checkIntegrity` is total: it raises nothing and returns the boolean
comparison result (in particular `false` on any signature mismatch or absent
`hmac`); a non-string value under a signed key instead raises a `TypeError`
(see the counterexample). -/
theorem c4_total_on_string_values (hf : String → String → String)
    (appSecret : String) (ps : List (String × String)) :
    checkIntegrityJS hf appSecret (ps.map (fun kv => (kv.1, JsVal.str kv.2)))
      = .ok (checkIntegrity hf appSecret ps) := by
  have hkeys : signedKeysJS (ps.map (fun kv => (kv.1, JsVal.str kv.2))) = signedKeys ps := by
    simp only [signedKeysJS, signedKeys, List.map_map]
    rfl
  have hmem : ∀ k ∈ sortLe strLe (signedKeys ps), (List.lookup k ps).isSome = true := by
    intro k hk
    exact lookup_isSome_of_mem_keys ps k
      (List.mem_of_mem_filter ((mem_sortLe _ _ _).mp hk))
  simp only [checkIntegrityJS, checkIntegrity, hkeys]
  rw [collectPairs_map_str ps _ hmem]
  simp only [lookup_map_str]
  cases List.lookup "hmac" ps <;> rfl

/-- Claim C2.  Evaluation of the code at the failing inputs.  A transport
error reaching `exchangeCodeForToken`'s response handler executes
`return next(err)` with no `next` in scope: a `ReferenceError` is thrown and
the supplied callback is never invoked (the claim and spec say the callback
must surface every failure).  A JSON-parse error and a missing or empty
`access_token` do invoke the callback once with the failure — but when such an
exchange failure reaches the middleware's callback branch, `onError` is
invoked with the hoisted, never-assigned `shopErr`, i.e. `undefined`
(modelled `none`), not with the failure; and under a transport error no hook
runs at all, the `ReferenceError` escaping uncaught. -/
theorem c2_exchange_failure_surface :
    exchangeCodeForToken .transportError = .thrown "ReferenceError: next is not defined"
      ∧ exchangeCodeForToken (.stringBody none) = .errCb .parseError
      ∧ exchangeCodeForToken (.objectBody []) = .errCb .noToken
      ∧ exchangeCodeForToken (.objectBody [("access_token", "")]) = .errCb .noToken
      ∧ (handleCallback (fun _ _ => "h") sampleOpts [("s.myshopify.com", "st")]
          [("code", "c"), ("hmac", "h"), ("timestamp", "ts"), ("state", "st"),
           ("shop", "s.myshopify.com")]
          (.stringBody none) none).onErrorArgs = [none]
      ∧ (handleCallback (fun _ _ => "h") sampleOpts [("s.myshopify.com", "st")]
          [("code", "c"), ("hmac", "h"), ("timestamp", "ts"), ("state", "st"),
           ("shop", "s.myshopify.com")]
          .transportError none).onErrorArgs = []
      ∧ (handleCallback (fun _ _ => "h") sampleOpts [("s.myshopify.com", "st")]
          [("code", "c"), ("hmac", "h"), ("timestamp", "ts"), ("state", "st"),
           ("shop", "s.myshopify.com")]
          .transportError none).uncaught = some "ReferenceError: next is not defined" := by
  decide

/-- Claim C3.  For every callback request whose required parameters are
present but whose `state` query parameter is not equal to the nonce stored for
that shop (including when no entry is stored), the error hook is invoked
exactly once (with the state error), the post-auth hook is invoked zero
times, and no token exchange is performed. -/
theorem c3_state_mismatch_fails
    (hf : String → String → String) (opts : MwOptions)
    (cache params : List (String × String)) (resp : HttpResponse) (onAuthErr : Option String)
    (hc : truthy (List.lookup "code" params) = true)
    (hh : truthy (List.lookup "hmac" params) = true)
    (ht : truthy (List.lookup "timestamp" params) = true)
    (hs : truthy (List.lookup "state" params) = true)
    (hsh : truthy (List.lookup "shop" params) = true)
    (hmm : List.lookup ((List.lookup "shop" params).getD "") cache
        ≠ List.lookup "state" params) :
    (handleCallback hf opts cache params resp onAuthErr).onErrorArgs
        = [some "ShopifyAuth: state not found in cache"]
      ∧ (handleCallback hf opts cache params resp onAuthErr).onAuthCalls = []
      ∧ (handleCallback hf opts cache params resp onAuthErr).exchangeAttempted = false := by
  simp [handleCallback, hc, hh, ht, hs, hsh, bne_iff_ne, hmm]

/-- Witness for claim C3 at a concrete input: all five parameters present,
empty state store. -/
theorem c3_state_mismatch_fails_witness :
    truthy (List.lookup "code" [("code", "c"), ("hmac", "h"), ("timestamp", "ts"),
        ("state", "st"), ("shop", "x")]) = true
      ∧ (handleCallback (fun _ _ => "") sampleOpts []
          [("code", "c"), ("hmac", "h"), ("timestamp", "ts"), ("state", "st"), ("shop", "x")]
          .transportError none).onErrorArgs = [some "ShopifyAuth: state not found in cache"]
      ∧ (handleCallback (fun _ _ => "") sampleOpts []
          [("code", "c"), ("hmac", "h"), ("timestamp", "ts"), ("state", "st"), ("shop", "x")]
          .transportError none).onAuthCalls = []
      ∧ (handleCallback (fun _ _ => "") sampleOpts []
          [("code", "c"), ("hmac", "h"), ("timestamp", "ts"), ("state", "st"), ("shop", "x")]
          .transportError none).exchangeAttempted = false :=
  ⟨by decide,
    c3_state_mismatch_fails (fun _ _ => "") sampleOpts []
      [("code", "c"), ("hmac", "h"), ("timestamp", "ts"), ("state", "st"), ("shop", "x")]
      .transportError none
      (by decide) (by decide) (by decide) (by decide) (by decide) (by decide)⟩

/-- Claim C5.  For every fully valid callback — parameters present, state
matching, signature verifying, hostname valid, exchange succeeding with token
`t` — followed by the post-auth hook calling `done` without an error, the
controller issues exactly one redirect, to the configured success URL
(no explicit override redirect URL exists in the configuration surface, so the
success URL is the only possible target), with no error-hook call and a single
post-auth invocation. -/
theorem c5_success_redirect
    (hf : String → String → String) (opts : MwOptions)
    (cache params : List (String × String)) (resp : HttpResponse) (t : String)
    (hc : truthy (List.lookup "code" params) = true)
    (hh : truthy (List.lookup "hmac" params) = true)
    (ht : truthy (List.lookup "timestamp" params) = true)
    (hs : truthy (List.lookup "state" params) = true)
    (hsh : truthy (List.lookup "shop" params) = true)
    (hstate : List.lookup ((List.lookup "shop" params).getD "") cache
        = List.lookup "state" params)
    (hint : checkIntegrity hf opts.appSecret params = true)
    (hhost : checkShopHostname ((List.lookup "shop" params).getD "") = true)
    (hexch : exchangeCodeForToken resp = .tokenCb t) :
    (handleCallback hf opts cache params resp none).redirects = [opts.authSuccessUrl]
      ∧ (handleCallback hf opts cache params resp none).onErrorArgs = []
      ∧ (handleCallback hf opts cache params resp none).onAuthCalls
          = [((List.lookup "shop" params).getD "", t)] := by
  simp [handleCallback, hc, hh, ht, hs, hsh, hstate, hint, hhost, hexch]

/-- Witness for claim C5 at a concrete fully valid callback. -/
theorem c5_success_redirect_witness :
    checkIntegrity (fun _ _ => "h") sampleOpts.appSecret
        [("code", "c"), ("hmac", "h"), ("timestamp", "ts"), ("state", "st"),
         ("shop", "s.myshopify.com")] = true
      ∧ (handleCallback (fun _ _ => "h") sampleOpts [("s.myshopify.com", "st")]
          [("code", "c"), ("hmac", "h"), ("timestamp", "ts"), ("state", "st"),
           ("shop", "s.myshopify.com")]
          (.objectBody [("access_token", "tok")]) none).redirects = ["/success"]
      ∧ (handleCallback (fun _ _ => "h") sampleOpts [("s.myshopify.com", "st")]
          [("code", "c"), ("hmac", "h"), ("timestamp", "ts"), ("state", "st"),
           ("shop", "s.myshopify.com")]
          (.objectBody [("access_token", "tok")]) none).onErrorArgs = []
      ∧ (handleCallback (fun _ _ => "h") sampleOpts [("s.myshopify.com", "st")]
          [("code", "c"), ("hmac", "h"), ("timestamp", "ts"), ("state", "st"),
           ("shop", "s.myshopify.com")]
          (.objectBody [("access_token", "tok")]) none).onAuthCalls
            = [("s.myshopify.com", "tok")] :=
  ⟨by decide,
    c5_success_redirect (fun _ _ => "h") sampleOpts [("s.myshopify.com", "st")]
      [("code", "c"), ("hmac", "h"), ("timestamp", "ts"), ("state", "st"),
       ("shop", "s.myshopify.com")]
      (.objectBody [("access_token", "tok")]) "tok"
      (by decide) (by decide) (by decide) (by decide) (by decide)
      (by decide) (by decide) (by decide) (by decide)⟩

/-- Claim C6, counterexample.  Omit `hmac` from an otherwise complete
callback: the error hook is invoked once, but its message lists the keys that
WERE present (`code,timestamp,state,shop`) and in particular never names the
missing key `hmac`, contradicting the claim that the message names each
missing key. -/
theorem c6_missing_param_counterexample :
    (handleCallback (fun _ _ => "") sampleOpts []
        [("code", "c"), ("timestamp", "ts"), ("state", "st"), ("shop", "shop.myshopify.com")]
        .transportError none).onErrorArgs
      = [some "ShopifyAuth: missing required query parameters (got code,timestamp,state,shop)"]
      ∧ mentions "ShopifyAuth: missing required query parameters (got code,timestamp,state,shop)"
          "hmac" = false := by
  decide

/-- Claim C6, amended.  For every callback request missing (or carrying empty)
required parameters among code, hmac, timestamp, state, shop, the error hook
is invoked exactly once with an error whose message lists the keys that were
PRESENT in the query (not the missing ones), and this happens before the
state, signature, or hostname checks run and before any exchange. -/
theorem c6_missing_param_message
    (hf : String → String → String) (opts : MwOptions)
    (cache params : List (String × String)) (resp : HttpResponse) (onAuthErr : Option String)
    (hmiss : (truthy (List.lookup "code" params) && truthy (List.lookup "hmac" params)
        && truthy (List.lookup "timestamp" params) && truthy (List.lookup "state" params)
        && truthy (List.lookup "shop" params)) = false) :
    (handleCallback hf opts cache params resp onAuthErr).onErrorArgs
        = [some ("ShopifyAuth: missing required query parameters (got "
            ++ joinSep "," (params.map Prod.fst) ++ ")")]
      ∧ (handleCallback hf opts cache params resp onAuthErr).stateCheckRun = false
      ∧ (handleCallback hf opts cache params resp onAuthErr).integrityCheckRun = false
      ∧ (handleCallback hf opts cache params resp onAuthErr).hostnameCheckRun = false
      ∧ (handleCallback hf opts cache params resp onAuthErr).exchangeAttempted = false
      ∧ (handleCallback hf opts cache params resp onAuthErr).onAuthCalls = [] := by
  simp [handleCallback, hmiss]

/-- Witness for the amended claim C6 at a concrete input with `hmac` omitted. -/
theorem c6_missing_param_message_witness :
    (truthy (List.lookup "code" [("code", "c"), ("timestamp", "ts"), ("state", "st"),
          ("shop", "shop.myshopify.com")])
        && truthy (List.lookup "hmac" [("code", "c"), ("timestamp", "ts"), ("state", "st"),
          ("shop", "shop.myshopify.com")])
        && truthy (List.lookup "timestamp" [("code", "c"), ("timestamp", "ts"), ("state", "st"),
          ("shop", "shop.myshopify.com")])
        && truthy (List.lookup "state" [("code", "c"), ("timestamp", "ts"), ("state", "st"),
          ("shop", "shop.myshopify.com")])
        && truthy (List.lookup "shop" [("code", "c"), ("timestamp", "ts"), ("state", "st"),
          ("shop", "shop.myshopify.com")])) = false
      ∧ (handleCallback (fun _ _ => "") sampleOpts []
          [("code", "c"), ("timestamp", "ts"), ("state", "st"), ("shop", "shop.myshopify.com")]
          .transportError none).onErrorArgs
        = [some ("ShopifyAuth: missing required query parameters (got "
            ++ joinSep "," ([("code", "c"), ("timestamp", "ts"), ("state", "st"),
              ("shop", "shop.myshopify.com")].map Prod.fst) ++ ")")] :=
  ⟨by decide,
    (c6_missing_param_message (fun _ _ => "") sampleOpts []
      [("code", "c"), ("timestamp", "ts"), ("state", "st"), ("shop", "shop.myshopify.com")]
      .transportError none (by decide)).1⟩

/-- Claim C7.  For every request to the start-path whose shop resolves
successfully and with no pre-permission hook configured, the controller issues
exactly one redirect, whose target is `url.format` of exactly: protocol
`https`, host the resolved shop, path `/admin/oauth/authorize`, and query
`client_id`, `scope` (the comma-joined configured scopes), `redirect_uri`
(the base URL resolved against the callback path) and `state` equal to the
nonce newly stored in the state store for that shop; no error-hook or
pre-permission-hook call occurs. -/
theorem c7_start_redirect (resolve : String → String → String) (opts : MwOptions)
    (cache : List (String × String)) (shop nonce : String) :
    (handleStart resolve opts cache (.ok shop) nonce false).redirects
        = [urlFormat { protocol := "https", host := shop,
                       pathname := "/admin/oauth/authorize",
                       query := [("client_id", opts.appKey), ("scope", joinSep "," opts.scope),
                                 ("redirect_uri", resolve opts.baseUrl opts.authCallbackPath),
                                 ("state", nonce)] }]
      ∧ List.lookup shop (handleStart resolve opts cache (.ok shop) nonce false).cacheAfter
          = some nonce
      ∧ (handleStart resolve opts cache (.ok shop) nonce false).onErrorArgs = []
      ∧ (handleStart resolve opts cache (.ok shop) nonce false).onPermissionCalls = 0 := by
  refine ⟨rfl, ?_, rfl, rfl⟩
  simp [handleStart, cacheSet, List.lookup]

/-- The callback branch never writes to the state store: its resulting cache
is the one it was given, in every branch. -/
theorem handleCallback_cacheAfter (hf : String → String → String) (opts : MwOptions)
    (cache params : List (String × String)) (resp : HttpResponse) (onAuthErr : Option String) :
    (handleCallback hf opts cache params resp onAuthErr).cacheAfter = cache := by
  simp only [handleCallback]
  repeat' split
  all_goals rfl

/-- Claim C8.  A callback that consumes a stored nonce (the state check reads
and matches it) leaves the state-store entry for that shop unchanged: the
entry is not deleted on consumption, and a subsequent lookup for the same shop
still returns the same nonce. -/
theorem c8_nonce_not_deleted
    (hf : String → String → String) (opts : MwOptions)
    (cache params : List (String × String)) (resp : HttpResponse) (onAuthErr : Option String)
    (shop nonce : String)
    (_hshop : List.lookup "shop" params = some shop)
    (_hstate : List.lookup "state" params = some nonce)
    (hcache : List.lookup shop cache = some nonce) :
    (handleCallback hf opts cache params resp onAuthErr).cacheAfter = cache
      ∧ List.lookup shop (handleCallback hf opts cache params resp onAuthErr).cacheAfter
          = some nonce := by
  refine ⟨handleCallback_cacheAfter hf opts cache params resp onAuthErr, ?_⟩
  rw [handleCallback_cacheAfter hf opts cache params resp onAuthErr]
  exact hcache

/-- Witness for claim C8 at a concrete matching callback. -/
theorem c8_nonce_not_deleted_witness :
    List.lookup "s.myshopify.com" [("s.myshopify.com", "st")] = some "st"
      ∧ (handleCallback (fun _ _ => "h") sampleOpts [("s.myshopify.com", "st")]
          [("code", "c"), ("hmac", "h"), ("timestamp", "ts"), ("state", "st"),
           ("shop", "s.myshopify.com")]
          (.objectBody [("access_token", "tok")]) none).cacheAfter
        = [("s.myshopify.com", "st")]
      ∧ List.lookup "s.myshopify.com"
          (handleCallback (fun _ _ => "h") sampleOpts [("s.myshopify.com", "st")]
            [("code", "c"), ("hmac", "h"), ("timestamp", "ts"), ("state", "st"),
             ("shop", "s.myshopify.com")]
            (.objectBody [("access_token", "tok")]) none).cacheAfter = some "st" :=
  ⟨by decide,
    (c8_nonce_not_deleted (fun _ _ => "h") sampleOpts [("s.myshopify.com", "st")]
      [("code", "c"), ("hmac", "h"), ("timestamp", "ts"), ("state", "st"),
       ("shop", "s.myshopify.com")]
      (.objectBody [("access_token", "tok")]) none "s.myshopify.com" "st"
      (by decide) (by decide) (by decide)).1,
    (c8_nonce_not_deleted (fun _ _ => "h") sampleOpts [("s.myshopify.com", "st")]
      [("code", "c"), ("hmac", "h"), ("timestamp", "ts"), ("state", "st"),
       ("shop", "s.myshopify.com")]
      (.objectBody [("access_token", "tok")]) none "s.myshopify.com" "st"
      (by decide) (by decide) (by decide)).2⟩

/-- Claim C10.  A second start-path request for the same shop overwrites the
stored nonce (last write wins): after the two start requests, the store holds
the second nonce, and a callback carrying the first nonce fails the state
check — one error-hook call, zero post-auth calls. -/
theorem c10_second_start_overwrites
    (resolve : String → String → String) (hf : String → String → String) (opts : MwOptions)
    (cache : List (String × String)) (shop nonce1 nonce2 cv hv tv : String)
    (resp : HttpResponse) (onAuthErr : Option String)
    (hne : nonce1 ≠ nonce2) (hcv : cv ≠ "") (hhv : hv ≠ "") (htv : tv ≠ "")
    (hn1 : nonce1 ≠ "") (hshop : shop ≠ "") :
    List.lookup shop
        (handleStart resolve opts
          (handleStart resolve opts cache (.ok shop) nonce1 false).cacheAfter
          (.ok shop) nonce2 false).cacheAfter = some nonce2
      ∧ (handleCallback hf opts
          (handleStart resolve opts
            (handleStart resolve opts cache (.ok shop) nonce1 false).cacheAfter
            (.ok shop) nonce2 false).cacheAfter
          [("code", cv), ("hmac", hv), ("timestamp", tv), ("state", nonce1), ("shop", shop)]
          resp onAuthErr).onErrorArgs = [some "ShopifyAuth: state not found in cache"]
      ∧ (handleCallback hf opts
          (handleStart resolve opts
            (handleStart resolve opts cache (.ok shop) nonce1 false).cacheAfter
            (.ok shop) nonce2 false).cacheAfter
          [("code", cv), ("hmac", hv), ("timestamp", tv), ("state", nonce1), ("shop", shop)]
          resp onAuthErr).onAuthCalls = [] := by
  have hlook : List.lookup shop
      (handleStart resolve opts
        (handleStart resolve opts cache (.ok shop) nonce1 false).cacheAfter
        (.ok shop) nonce2 false).cacheAfter = some nonce2 := by
    simp [handleStart, cacheSet, List.lookup]
  refine ⟨hlook, ?_, ?_⟩ <;>
    simp [handleCallback, truthy, List.lookup, hcv, hhv, htv, hn1, hshop, hlook,
      bne_iff_ne, Ne.symm hne]

/-- Witness for claim C10 at a concrete pair of start requests followed by a
callback replaying the first nonce. -/
theorem c10_second_start_overwrites_witness :
    ("n1" : String) ≠ "n2"
      ∧ List.lookup "a.myshopify.com"
          (handleStart (fun b p => b ++ p) sampleOpts
            (handleStart (fun b p => b ++ p) sampleOpts [] (.ok "a.myshopify.com") "n1"
              false).cacheAfter
            (.ok "a.myshopify.com") "n2" false).cacheAfter = some "n2"
      ∧ (handleCallback (fun _ _ => "") sampleOpts
          (handleStart (fun b p => b ++ p) sampleOpts
            (handleStart (fun b p => b ++ p) sampleOpts [] (.ok "a.myshopify.com") "n1"
              false).cacheAfter
            (.ok "a.myshopify.com") "n2" false).cacheAfter
          [("code", "c"), ("hmac", "h"), ("timestamp", "t"), ("state", "n1"),
           ("shop", "a.myshopify.com")]
          .transportError none).onErrorArgs = [some "ShopifyAuth: state not found in cache"]
      ∧ (handleCallback (fun _ _ => "") sampleOpts
          (handleStart (fun b p => b ++ p) sampleOpts
            (handleStart (fun b p => b ++ p) sampleOpts [] (.ok "a.myshopify.com") "n1"
              false).cacheAfter
            (.ok "a.myshopify.com") "n2" false).cacheAfter
          [("code", "c"), ("hmac", "h"), ("timestamp", "t"), ("state", "n1"),
           ("shop", "a.myshopify.com")]
          .transportError none).onAuthCalls = [] :=
  ⟨by decide,
    (c10_second_start_overwrites (fun b p => b ++ p) (fun _ _ => "") sampleOpts []
      "a.myshopify.com" "n1" "n2" "c" "h" "t" .transportError none
      (by decide) (by decide) (by decide) (by decide) (by decide) (by decide)).1,
    (c10_second_start_overwrites (fun b p => b ++ p) (fun _ _ => "") sampleOpts []
      "a.myshopify.com" "n1" "n2" "c" "h" "t" .transportError none
      (by decide) (by decide) (by decide) (by decide) (by decide) (by decide)).2.1,
    (c10_second_start_overwrites (fun b p => b ++ p) (fun _ _ => "") sampleOpts []
      "a.myshopify.com" "n1" "n2" "c" "h" "t" .transportError none
      (by decide) (by decide) (by decide) (by decide) (by decide) (by decide)).2.2⟩
